import Mathlib

set_option maxRecDepth 100000

/-!
Shallow embedding of the virtual-trading core of `src/bybit_client.py` and the
executing phase of `src/engine.py` (repository PhemcodeJay/Algo-Trader), with
theorems settling the frozen claims about the specification.

Modelling conventions:
* Python floats are modelled as exact rationals (`ℚ`); Python's `round(x, n)`
  rounds half to even, modelled by `roundHalfEven`/`pyRound`.
* Wall-clock time (used by the source only to generate `virtual_<millis>`
  order ids and `create_time` stamps) is modelled by a counter in the state;
  `create_time`/`update_time`/`close_time` fields carry no logic and are elided.
* Market data (`get_chart_data(symbol, "1", 1)`, giving the last close price)
  is an external collaborator, modelled as a function `String → Option ℚ`
  (`none` = no candles returned).
* Python dicts whose keys are always present become structures with plain
  fields; keys that may be absent (an order's `margin`/`leverage`, which the
  TP/SL order dicts do not carry, and the `"virtual"` key of the wallet dict)
  become `Option` fields.  Numeric reads written `d.get(k, 0)` in the source
  default to `0` here as well.
* `db_manager.add_trade` / `db_manager.close_trade` are external record
  stores, modelled as append-only lists in the state.
-/

namespace AlgoTrader

/-- Floor of a rational, written with integer floor division (kernel-computable). -/
def ratFloor (q : ℚ) : ℤ := q.num.fdiv q.den

/-- Python `round` to an integer: round half to even (banker's rounding). -/
def roundHalfEven (q : ℚ) : ℤ :=
  let f : ℤ := ratFloor q
  let r : ℚ := q - f
  if r < 1/2 then f
  else if 1/2 < r then f + 1
  else if 2 ∣ f then f else f + 1

/-- Python `str.lower()`, charwise. -/
def pyLower (s : String) : String := String.mk (s.data.map Char.toLower)

/-- Python `max(a, b)` on numbers. -/
def pyMax (a b : ℚ) : ℚ := if a ≤ b then b else a

/-- Python `round(q, n)` for `n ≥ 0` digits, on exact rationals. -/
def pyRound (q : ℚ) (n : ℕ) : ℚ :=
  (roundHalfEven (q * 10 ^ n) : ℚ) / 10 ^ n

/-- Python `x or d` for an optional float `x`: `None` and `0.0` are falsy. -/
def pyOrQ (x : Option ℚ) (d : ℚ) : ℚ :=
  match x with
  | none => d
  | some p => if p = 0 then d else p

/-- The per-mode balance record stored under the `"virtual"` key of
`capital.json` / `self.virtual_wallet`; reads in the source use
`.get("available", 0)` / `.get("used", 0)`. -/
structure VirtualRecord where
  available : ℚ
  used : ℚ
  deriving DecidableEq

/-- The record `_load_virtual_wallet` writes under the `"USDT"` key
(`bybit_client.py` lines 122-127). -/
structure UsdtRecord where
  equity : ℚ
  available_balance : ℚ
  deriving DecidableEq

/-- Model of `self.virtual_wallet`: a dict that may hold a `"USDT"` and/or a
`"virtual"` entry. -/
structure VirtualWallet where
  usdt : Option UsdtRecord := none
  virt : Option VirtualRecord := none
  deriving DecidableEq

/-- The default wallet `_load_virtual_wallet` creates when `capital.json` is
absent: `{"USDT": {"equity": 100.0, "available_balance": 100.0}}`. -/
def default_virtual_wallet : VirtualWallet :=
  { usdt := some { equity := 100, available_balance := 100 }, virt := none }

/-- A virtual order dict.  Parent orders carry `margin`/`leverage`; the TP/SL
order dicts created inline in `place_order` do not have those keys, hence
`Option`. -/
structure VOrder where
  order_id : String
  symbol : String
  side : String
  order_type : String
  qty : ℚ
  price : Option ℚ
  status : String
  margin : Option ℚ := none
  leverage : Option ℚ := none
  reduce_only : Bool := false
  deriving DecidableEq

/-- A virtual position dict (`place_order` lines 554-563). -/
structure VPosition where
  symbol : String
  side : String
  qty : ℚ
  price : ℚ
  margin : ℚ
  status : String
  order_id : String
  unrealized_pnl : Option ℚ := none
  realized_pnl : Option ℚ := none
  deriving DecidableEq

/-- The trade dict passed to `db_manager.add_trade` (`place_order` lines
602-614). -/
structure ClientTrade where
  symbol : String
  side : String
  qty : ℚ
  entry_price : ℚ
  leverage : ℚ
  margin_usdt : ℚ
  order_id : String
  status : String
  virtual : Bool
  deriving DecidableEq

/-- Arguments of a `db_manager.close_trade(order_id, exit_price, pnl)` call. -/
structure CloseRec where
  order_id : String
  exit_price : ℚ
  pnl : ℚ
  deriving DecidableEq

/-- The mutable state of `BybitClient` relevant to virtual trading, plus the
external trade-record store and a counter standing in for wall-clock time. -/
structure ClientState where
  virtual_wallet : VirtualWallet
  virtual_orders : List VOrder
  virtual_positions : List VPosition
  db_trades : List ClientTrade
  db_closes : List CloseRec
  clock : Nat
  deriving DecidableEq

/-- A fresh client over a given wallet: empty order/position lists. -/
def initState (w : VirtualWallet) : ClientState :=
  { virtual_wallet := w, virtual_orders := [], virtual_positions := [],
    db_trades := [], db_closes := [], clock := 0 }

/-- Reads `self.virtual_wallet.get("virtual", {})` followed by numeric reads with
default `0`. -/
def getVirtual (s : ClientState) : VirtualRecord :=
  s.virtual_wallet.virt.getD { available := 0, used := 0 }

/-- Sum `available + used` of the virtual record: the equity/capital that
`get_wallet_balance` reports for virtual mode. -/
def equity (s : ClientState) : ℚ :=
  (getVirtual s).available + (getVirtual s).used

/-- Embeds `calculate_margin` (`bybit_client.py` line 317): `round(qty*price/leverage, 2)`. -/
def calculate_margin (qty price leverage : ℚ) : ℚ :=
  pyRound (qty * price / leverage) 2

/-- Embeds `calculate_virtual_pnl` (`bybit_client.py` lines 768-783).  `priceOf` is
the last close returned by `get_chart_data`; no candles gives `0.0`. -/
def calculate_virtual_pnl (priceOf : String → Option ℚ) (pos : VPosition) : ℚ :=
  match priceOf pos.symbol with
  | none => 0
  | some last_price =>
      if pyLower pos.side = "buy" then (last_price - pos.price) * pos.qty
      else (pos.price - last_price) * pos.qty

/-- First open position on `symbol`: the position the `for`-loop of
`close_virtual_position` acts on. -/
def findOpenPos (symbol : String) : List VPosition → Option VPosition
  | [] => none
  | p :: rest =>
      if p.symbol == symbol && p.status == "open" then some p
      else findOpenPos symbol rest

/-- The in-place mutation of that first open position on `symbol`: mark it
closed with the given pnl; all later entries untouched. -/
def closePosList (symbol : String) (pnl : ℚ) : List VPosition → List VPosition
  | [] => []
  | p :: rest =>
      if p.symbol == symbol && p.status == "open" then
        { p with status := "closed", unrealized_pnl := some pnl,
                 realized_pnl := some pnl } :: rest
      else p :: closePosList symbol pnl rest

/-- Embeds `close_virtual_position` (`bybit_client.py` lines 730-765): closes the
first open position on `symbol`, refunds its margin plus the pnl to
`available`, subtracts the margin from `used` floored at `0`, and logs a
`close_trade` record only when an exit price is available.  Returns the
mutated position (`None` if nothing was open). -/
def close_virtual_position (priceOf : String → Option ℚ) (symbol : String)
    (s : ClientState) : Option VPosition × ClientState :=
  match findOpenPos symbol s.virtual_positions with
  | none => (none, s)
  | some pos =>
      let pnl := calculate_virtual_pnl priceOf pos
      let margin := pos.margin
      let w := getVirtual s
      let w2 : VirtualRecord :=
        { used := pyMax (w.used - margin) 0, available := w.available + margin + pnl }
      let closes := match priceOf symbol with
        | some exit_price => s.db_closes ++ [{ order_id := pos.order_id,
                                               exit_price := exit_price, pnl := pnl }]
        | none => s.db_closes
      (some { pos with status := "closed", unrealized_pnl := some pnl,
                       realized_pnl := some pnl },
       { s with virtual_wallet := { s.virtual_wallet with virt := some w2 },
                virtual_positions := closePosList symbol pnl s.virtual_positions,
                db_closes := closes })

/-- Embeds `monitor_virtual_orders` (`bybit_client.py` lines 791-802): every open
virtual order becomes `filled` (fill timestamps elided). -/
def monitor_virtual_orders (s : ClientState) : ClientState :=
  let fill := fun (o : VOrder) =>
    if o.status == "open" then { o with status := "filled" } else o
  { s with virtual_orders := s.virtual_orders.map fill }

/-- First open order matching `(symbol, side)`: the `next(...)` search of
`place_order`'s virtual path (lines 488-491).  Note it matches protective
TP/SL orders too. -/
def findOpenOrder (symbol side : String) : List VOrder → Option VOrder
  | [] => none
  | o :: rest =>
      if o.symbol == symbol && o.side == side && o.status == "open" then some o
      else findOpenOrder symbol side rest

/-- In-place update (`existing_order.update`, lines 506-511) of the matched
order: new qty, price and margin. -/
def updateOrderList (oid : String) (qty : ℚ) (price : Option ℚ) (margin : ℚ) :
    List VOrder → List VOrder
  | [] => []
  | o :: rest =>
      if o.order_id == oid then
        { o with qty := qty, price := price, margin := some margin } :: rest
      else o :: updateOrderList oid qty price margin rest

/-- In-place update of the first position whose `order_id` matches (lines
513-521; the loop `break`s after the first hit).  Status is untouched. -/
def updatePosList (oid : String) (qty : ℚ) (price : Option ℚ) (margin : ℚ) :
    List VPosition → List VPosition
  | [] => []
  | p :: rest =>
      if p.order_id == oid then
        { p with qty := qty, price := pyOrQ price 0, margin := margin } :: rest
      else p :: updatePosList oid qty price margin rest

/-- What the virtual path of `place_order` returns. -/
inductive PlaceRet where
  /-- The dict `{"error": "Insufficient virtual capital for modification"}` (line 499). -/
  | errModify : PlaceRet
  /-- The dict `{"error": "Insufficient virtual capital"}` (line 528). -/
  | errInsufficient : PlaceRet
  /-- The dict `{"message": "Virtual order modified", "order": ...}` (line 523);
  note this dict has no top-level `"symbol"` key. -/
  | modified (order : VOrder) : PlaceRet
  /-- the `virtual_order` dict (line 616). -/
  | opened (order : VOrder) : PlaceRet
  deriving DecidableEq

/-- The fresh-open tail of `place_order`'s virtual path (lines 530-616),
entered after the margin check has passed: close any open position on the
symbol, apply margin (and, a second time, the realized pnl) to the wallet,
append the parent order, the position, and the two inline TP/SL orders
(multipliers 1.02 / 0.98, lines 566-571), and record the trade.

Python aliasing note: the local `wallet` dict read at line 484 is the same
object `close_virtual_position` mutates when the `"virtual"` key exists; when
the key is absent, `wallet` is a fresh empty dict whose reads give `0` and
which overwrites (line 535) anything the close wrote. -/
def place_order_open (priceOf : String → Option ℚ) (symbol side order_type : String)
    (qty : ℚ) (price : Option ℚ) (margin : ℚ) (s : ClientState) :
    PlaceRet × ClientState :=
  let keyPresent := s.virtual_wallet.virt.isSome
  let closed := close_virtual_position priceOf symbol s
  let s1 := closed.2
  let pnl : ℚ := match closed.1 with
    | some p => (p.realized_pnl).getD 0
    | none => 0
  let w1 : VirtualRecord :=
    if keyPresent then getVirtual s1 else { available := 0, used := 0 }
  let w2 : VirtualRecord :=
    { available := w1.available - margin + pnl, used := w1.used + margin }
  let order_id := "virtual_" ++ toString s1.clock
  let virtual_order : VOrder :=
    { order_id := order_id, symbol := symbol, side := side,
      order_type := order_type, qty := qty, price := price, status := "open",
      margin := some margin, leverage := some 20 }
  let new_pos : VPosition :=
    { symbol := symbol, side := side, qty := qty, price := pyOrQ price 0,
      margin := margin, status := "open", order_id := order_id }
  let entry_price := pyOrQ price 1
  let tp_price := pyRound (entry_price * 1.02) 4
  let sl_price := pyRound (entry_price * 0.98) 4
  let opposite_side := if side == "Buy" then "Sell" else "Buy"
  let tp_order : VOrder :=
    { order_id := order_id ++ "_TP", symbol := symbol, side := opposite_side,
      order_type := "Limit", qty := qty, price := some tp_price,
      status := "open", reduce_only := true }
  let sl_order : VOrder :=
    { order_id := order_id ++ "_SL", symbol := symbol, side := opposite_side,
      order_type := "Limit", qty := qty, price := some sl_price,
      status := "open", reduce_only := true }
  let trade_data : ClientTrade :=
    { symbol := symbol, side := side, qty := qty, entry_price := entry_price,
      leverage := 20, margin_usdt := margin, order_id := order_id,
      status := "open", virtual := true }
  (PlaceRet.opened virtual_order,
   { s1 with
       virtual_wallet := { s1.virtual_wallet with virt := some w2 },
       virtual_orders := s1.virtual_orders ++ [virtual_order, tp_order, sl_order],
       virtual_positions := s1.virtual_positions ++ [new_pos],
       db_trades := s1.db_trades ++ [trade_data],
       clock := s1.clock + 1 })

/-- The virtual path of `place_order` (`bybit_client.py` lines 478-616).
`price or 1.0` makes an absent or zero price default to `1.0`; leverage is
fixed at 20.  If an open order matches `(symbol, side)`, the call is a
modification (`margin_diff` applied); reading `existing_order["margin"]`
raises `KeyError` when the match is a protective order (whose dict has no
`margin` key) — modelled by `Except.error`, raised before any mutation.
Otherwise the margin check runs against the pre-call `available`, and only
then does the fresh-open tail close any open position on the symbol. -/
def place_order (priceOf : String → Option ℚ) (symbol side order_type : String)
    (qty : ℚ) (price : Option ℚ) (s : ClientState) :
    Except String PlaceRet × ClientState :=
  let price_used := pyOrQ price 1
  let leverage : ℚ := 20
  let margin := calculate_margin qty price_used leverage
  let available_capital := (getVirtual s).available
  match findOpenOrder symbol side s.virtual_orders with
  | some existing_order =>
      match existing_order.margin with
      | none => (Except.error "KeyError: margin", s)
      | some old_margin =>
          let margin_diff := margin - old_margin
          if margin_diff > available_capital then (Except.ok PlaceRet.errModify, s)
          else
            let w := getVirtual s
            let w2 : VirtualRecord :=
              { available := w.available - margin_diff, used := w.used + margin_diff }
            let o2 : VOrder :=
              { existing_order with qty := qty, price := price, margin := some margin }
            (Except.ok (PlaceRet.modified o2),
             { s with
                 virtual_wallet := { s.virtual_wallet with virt := some w2 },
                 virtual_orders :=
                   updateOrderList existing_order.order_id qty price margin
                     s.virtual_orders,
                 virtual_positions :=
                   updatePosList existing_order.order_id qty price margin
                     s.virtual_positions })
  | none =>
      if margin > available_capital then (Except.ok PlaceRet.errInsufficient, s)
      else
        let r := place_order_open priceOf symbol side order_type qty price margin s
        (Except.ok r.1, r.2)

/-- Embeds `place_tp_sl_limit_orders` (`bybit_client.py` lines 619-710), virtual
branch: appends two reduce-only limit orders priced with the multipliers
1.30 / 0.85 (the same prices the real branch submits); the offsets do not
depend on `side`, only the order side is flipped. -/
def place_tp_sl_limit_orders (symbol side : String) (entry_price qty : ℚ)
    (order_id : String) (s : ClientState) : ClientState :=
  let tp_multiplier : ℚ := 1.30
  let sl_multiplier : ℚ := 0.85
  let tp_price := pyRound (entry_price * tp_multiplier) 4
  let sl_price := pyRound (entry_price * sl_multiplier) 4
  let opposite_side := if side == "Buy" then "Sell" else "Buy"
  let tp_order : VOrder :=
    { order_id := order_id ++ "_VTP", symbol := symbol, side := opposite_side,
      order_type := "Limit", qty := qty, price := some tp_price,
      status := "open", reduce_only := true }
  let sl_order : VOrder :=
    { order_id := order_id ++ "_VSL", symbol := symbol, side := opposite_side,
      order_type := "Limit", qty := qty, price := some sl_price,
      status := "open", reduce_only := true }
  { s with virtual_orders := s.virtual_orders ++ [tp_order, sl_order] }

/-- The TP/SL prices `place_tp_sl_limit_orders` computes (lines 628-632),
shared by its real and virtual branches. -/
def tp_sl_prices (entry_price : ℚ) : ℚ × ℚ :=
  (pyRound (entry_price * 1.30) 4, pyRound (entry_price * 0.85) 4)

/-- One virtual-mode operation on the client. -/
inductive VOp where
  | place (priceOf : String → Option ℚ) (symbol side order_type : String)
      (qty : ℚ) (price : Option ℚ) : VOp
  | close (priceOf : String → Option ℚ) (symbol : String) : VOp
  | monitor : VOp

/-- Apply one operation, discarding the returned value. -/
def applyOp (s : ClientState) : VOp → ClientState
  | VOp.place priceOf symbol side order_type qty price =>
      (place_order priceOf symbol side order_type qty price s).2
  | VOp.close priceOf symbol => (close_virtual_position priceOf symbol s).2
  | VOp.monitor => monitor_virtual_orders s

/-- Apply a finite sequence of operations. -/
def applyOps (s : ClientState) (ops : List VOp) : ClientState :=
  ops.foldl applyOp s

/-- Number of open positions on `symbol` in a position list. -/
def openPosCountL (symbol : String) (l : List VPosition) : ℕ :=
  (l.filter (fun p => p.symbol == symbol && p.status == "open")).length

/-- Number of open positions on `symbol`. -/
def openPosCount (symbol : String) (s : ClientState) : ℕ :=
  openPosCountL symbol s.virtual_positions

/-! Real-path quantity quantization (`bybit_client.py` lines 383-386):
`qty = round(float(qty) / qty_step) * qty_step`, then
`precision = str(qty_step)[::-1].find('.')` and `f"{qty:.{precision}f}"`. -/

/-- Computes `round(qty / qty_step) * qty_step`. -/
def quantize_qty (qty qty_step : ℚ) : ℚ :=
  (roundHalfEven (qty / qty_step) : ℚ) * qty_step

/-- Decimal digits after the point in Python's `str()` of the step: the least
`d ≥ 1` with `step * 10^d` integral (`str(0.01) = "0.01"` gives 2,
`str(1.0) = "1.0"` gives 1, `str(0.5) = "0.5"` gives 1). -/
def stepPrecision (s : ℚ) : ℕ :=
  match (List.range 18).find? (fun d => decide (1 ≤ d) && decide ((s * 10 ^ d).den = 1)) with
  | some d => d
  | none => 17

/-- Python `f"{q:.{prec}f}"` for `prec ≥ 1` on an exact rational (rounds half
to even, zero-pads the fraction). -/
def formatFixed (q : ℚ) (prec : ℕ) : String :=
  let n : ℤ := roundHalfEven (q * 10 ^ prec)
  let sgn := if n < 0 then "-" else ""
  let m := n.natAbs
  let ip := m / 10 ^ prec
  let fp := m % 10 ^ prec
  let fpStr := toString fp
  let pad := String.mk (List.replicate (prec - fpStr.length) '0')
  sgn ++ toString ip ++ "." ++ pad ++ fpStr

/-- The `formatted_qty` string submitted to the exchange. -/
def format_qty (qty qty_step : ℚ) : String :=
  formatFixed (quantize_qty qty qty_step) (stepPrecision qty_step)

/-! Executing phase of `TradingEngine.run_once` (`src/engine.py` lines
205-261), virtual mode (`is_real = False`). -/

/-- A scored/ranked signal; `Option` fields model keys `signal.get(...)` may
find absent or `None`.  Symbol and side are assumed present (the signal
generator always sets them; the executing loop reads them with `.get` but the
claims under study concern the later field validation). -/
structure Signal where
  symbol : String
  side : String
  order_type : String := "Market"
  qty : ℚ := 0
  entry : ℚ := 0
  sl : Option ℚ := none
  tp : Option ℚ := none
  leverage : Option ℚ := none
  margin_usdt : Option ℚ := none
  deriving DecidableEq

/-- Python truthiness of an optional number: `None` and `0` are falsy. -/
def truthyQ (x : Option ℚ) : Bool :=
  match x with
  | none => false
  | some q => q != 0

/-- Python truthiness of a string: `""` is falsy. -/
def truthyS (x : String) : Bool := x != ""

/-- The trade dict `run_once` builds and stores (`engine.py` lines 241-258). -/
structure EngineTrade where
  symbol : String
  side : String
  qty : ℚ
  entry_price : Option ℚ
  stop_loss : ℚ
  take_profit : ℚ
  leverage : ℚ
  margin_usdt : ℚ
  status : String
  order_id : String
  virtual : Bool
  deriving DecidableEq

/-- Embeds `missing_fields` (`engine.py` lines 228-235): required order fields
(`symbol`, `side`, `qty`, `price`, `order_id`) read with `not order.get(key)`
then required signal fields (`SL`, `TP`, `leverage`, `margin_usdt`). -/
def missing_fields (order : VOrder) (signal : Signal) : List String :=
  (if truthyS order.symbol then [] else ["symbol"]) ++
  (if truthyS order.side then [] else ["side"]) ++
  (if order.qty != 0 then [] else ["qty"]) ++
  (if truthyQ order.price then [] else ["price"]) ++
  (if truthyS order.order_id then [] else ["order_id"]) ++
  (if truthyQ signal.sl then [] else ["SL"]) ++
  (if truthyQ signal.tp then [] else ["TP"]) ++
  (if truthyQ signal.leverage then [] else ["leverage"]) ++
  (if truthyQ signal.margin_usdt then [] else ["margin_usdt"])

/-- The error a cycle can die with: the `raise ValueError(...)` of
`engine.py` line 238, which is outside the `try` that wraps only the
`place_order` call. -/
inductive RunError where
  | valueError (fields : List String) : RunError
  deriving DecidableEq

/-- The `for signal in top_signals` executing loop of `run_once` (lines
205-261).  A `place_order` exception is caught and the signal skipped; a
result without a top-level `"symbol"` key (error dicts and the
"modified" dict) is skipped; an `opened` order with missing required fields
raises, ending the whole loop; otherwise the trade is recorded and the loop
continues. -/
def executeSignals (priceOf : String → Option ℚ) :
    List Signal → ClientState → List EngineTrade →
    Except RunError (ClientState × List EngineTrade)
  | [], s, trades => Except.ok (s, trades)
  | sig :: rest, s, trades =>
      let r := place_order priceOf sig.symbol sig.side sig.order_type
                 sig.qty (some sig.entry) s
      match r.1 with
      | Except.error _ => executeSignals priceOf rest r.2 trades
      | Except.ok (PlaceRet.opened order) =>
          let missing := missing_fields order sig
          if missing.isEmpty then
            let trade : EngineTrade :=
              { symbol := order.symbol, side := order.side, qty := order.qty,
                entry_price := order.price,
                stop_loss := sig.sl.getD 0, take_profit := sig.tp.getD 0,
                leverage := (sig.leverage).getD 0,
                margin_usdt := (sig.margin_usdt).getD 0,
                status := "open", order_id := order.order_id, virtual := true }
            executeSignals priceOf rest r.2 (trades ++ [trade])
          else Except.error (RunError.valueError missing)
      | Except.ok _ => executeSignals priceOf rest r.2 trades

/-! Concrete fixtures used by the witnesses and counterexamples below. -/

/-- A wallet whose `"virtual"` record matches the schema the trading path
reads: `available = 100`, `used = 0` (a valid capital record with capital
`100`). -/
def walletV100 : VirtualWallet := { virt := some { available := 100, used := 0 } }

/-- Market data with no candles for any symbol. -/
def noPrice : String → Option ℚ := fun _ => none

/-- Market data with every last close at 110. -/
def lastPrice110 : String → Option ℚ := fun _ => some 110

/-- Market data with every last close at 90. -/
def lastPrice90 : String → Option ℚ := fun _ => some 90

/-- Open at margin 5, close it (orders stay `open`), then "modify" the same
`(symbol, side)` down to margin 1: the operation sequence of the C1
counterexample. -/
def c1_ops : List VOp :=
  [VOp.place noPrice "BTCUSDT" "Buy" "Limit" 1 (some 100),
   VOp.close noPrice "BTCUSDT",
   VOp.place noPrice "BTCUSDT" "Buy" "Limit" 1 (some 20)]

/-- State after opening a Buy position on BTCUSDT from `walletV100`. -/
def c4_s1 : ClientState :=
  (place_order noPrice "BTCUSDT" "Buy" "Limit" 1 (some 100) (initState walletV100)).2

/-- A 2-unit long from entry 100. -/
def posBuy2 : VPosition :=
  { symbol := "BTCUSDT", side := "Buy", qty := 2, price := 100, margin := 10,
    status := "open", order_id := "virtual_0" }

/-- A 2-unit short from entry 100. -/
def posSell2 : VPosition :=
  { symbol := "BTCUSDT", side := "Sell", qty := 2, price := 100, margin := 10,
    status := "open", order_id := "virtual_0" }

/-- An open position with margin 20 while only 10 is available and no open
order matches: the configuration of the C7 counterexample. -/
def c7_state : ClientState :=
  { virtual_wallet := { virt := some { available := 10, used := 20 } },
    virtual_orders := [],
    virtual_positions := [{ symbol := "BTCUSDT", side := "Buy", qty := 4,
                            price := 100, margin := 20, status := "open",
                            order_id := "virtual_0" }],
    db_trades := [], db_closes := [], clock := 1 }

/-- Like `c7_state` but with 25 available, enough for a 15 margin order. -/
def c7_witness_state : ClientState :=
  { virtual_wallet := { virt := some { available := 25, used := 20 } },
    virtual_orders := [],
    virtual_positions := [{ symbol := "BTCUSDT", side := "Buy", qty := 4,
                            price := 100, margin := 20, status := "open",
                            order_id := "virtual_0" }],
    db_trades := [], db_closes := [], clock := 1 }

/-- A state with one open order of margin 5 and 10 available, for the
modification branch of the C3 witness. -/
def c3_modify_state : ClientState :=
  { virtual_wallet := { virt := some { available := 10, used := 5 } },
    virtual_orders := [{ order_id := "virtual_0", symbol := "BTCUSDT",
                         side := "Buy", order_type := "Limit", qty := 1,
                         price := some 100, status := "open", margin := some 5,
                         leverage := some 20 }],
    virtual_positions := [{ symbol := "BTCUSDT", side := "Buy", qty := 1,
                            price := 100, margin := 5, status := "open",
                            order_id := "virtual_0" }],
    db_trades := [], db_closes := [], clock := 1 }

/-- A 1-unit long from entry 100 with margin 5. -/
def c1_close_pos : VPosition :=
  { symbol := "BTCUSDT", side := "Buy", qty := 1, price := 100, margin := 5,
    status := "open", order_id := "virtual_0" }

/-- A state holding one open position (margin 5) with 95 available, as after
the first half of the end-to-end scenario. -/
def c1_close_state : ClientState :=
  { virtual_wallet := { virt := some { available := 95, used := 5 } },
    virtual_orders := [],
    virtual_positions := [c1_close_pos],
    db_trades := [], db_closes := [], clock := 1 }

/-- A Sell signal on BTCUSDT (opposite side of the open Buy in `c4_s1`). -/
def sigSell : Signal :=
  { symbol := "BTCUSDT", side := "Sell", qty := 1, entry := 100,
    sl := some 1, tp := some 2, leverage := some 20, margin_usdt := some 5 }

/-- A ranked signal whose `SL` is missing; everything else is valid. -/
def sigMissingSL : Signal :=
  { symbol := "AAAUSDT", side := "Buy", qty := 1, entry := 100,
    sl := none, tp := some 1, leverage := some 20, margin_usdt := some 5 }

/-- A fully valid ranked signal. -/
def sigOk : Signal :=
  { symbol := "BBBUSDT", side := "Buy", qty := 1, entry := 50,
    sl := some 1, tp := some 2, leverage := some 20, margin_usdt := some 5 }

/-- State after `c1_ops`: the result of open (margin 5), close, "modify"
down to margin 1 on the untouched open order. -/
def c1_final : ClientState := applyOps (initState walletV100) c1_ops

/-- A wallet with only 10 available. -/
def walletV10 : VirtualWallet := { virt := some { available := 10, used := 0 } }

/-- The open order held by `c3_modify_state`. -/
def c3_order : VOrder :=
  { order_id := "virtual_0", symbol := "BTCUSDT", side := "Buy",
    order_type := "Limit", qty := 1, price := some 100, status := "open",
    margin := some 5, leverage := some 20 }

/-- Result of opening a Sell right after a Buy on the same symbol. -/
def c4_result : Except String PlaceRet × ClientState :=
  place_order noPrice "BTCUSDT" "Sell" "Limit" 1 (some 100) c4_s1

/-- Result of a margin-15 order in `c7_state`. -/
def c7_result : Except String PlaceRet × ClientState :=
  place_order noPrice "BTCUSDT" "Buy" "Limit" 3 (some 100) c7_state

/-- Result of a margin-15 order in `c7_witness_state`. -/
def c7_witness_result : Except String PlaceRet × ClientState :=
  place_order noPrice "BTCUSDT" "Buy" "Limit" 3 (some 100) c7_witness_state

end AlgoTrader

deriving instance DecidableEq for Except

namespace AlgoTrader

/-- C5: for a position with entry price `e`, quantity `q` and last price `p`,
`calculate_virtual_pnl` returns `(p - e) * q` for side buy and `(e - p) * q`
for side sell (side compared lower-cased). -/
theorem C5_pnl_formula (priceOf : String → Option ℚ) (pos : VPosition)
    (last : ℚ) (h : priceOf pos.symbol = some last) :
    (pyLower pos.side = "buy" →
      calculate_virtual_pnl priceOf pos = (last - pos.price) * pos.qty) ∧
    (pyLower pos.side = "sell" →
      calculate_virtual_pnl priceOf pos = (pos.price - last) * pos.qty) := by
  unfold calculate_virtual_pnl
  rw [h]
  constructor
  · intro hb
    simp [hb]
  · intro hs
    rw [hs]
    simp

/-- C5 witness: entry=100, qty=2, side=buy, last=110 gives pnl 20; entry=100,
qty=2, side=sell, last=90 gives pnl 20. -/
theorem C5_pnl_formula_witness :
    calculate_virtual_pnl lastPrice110 posBuy2 = 20 ∧
    calculate_virtual_pnl lastPrice90 posSell2 = 20 := by
  constructor
  · have h := (C5_pnl_formula lastPrice110 posBuy2 110 rfl).1 (by with_unfolding_all decide)
    rw [h]; norm_num [posBuy2]
  · have h := (C5_pnl_formula lastPrice90 posSell2 90 rfl).2 (by with_unfolding_all decide)
    rw [h]; norm_num [posSell2]

/-- C9: the real-path quantity is quantized to an integer multiple of the lot
step (`round(qty/step)*step`), deterministically; concretely qty=1.2345 with
step=0.01 quantizes to 1.23 and formats as "1.23", and steps 0.001, 1 and
0.5 give 1.234, 1 and 1. -/
theorem C9_quantization :
    (∀ qty step : ℚ, step ≠ 0 → ∃ k : ℤ, quantize_qty qty step = (k : ℚ) * step) ∧
    quantize_qty 1.2345 0.01 = 1.23 ∧
    format_qty 1.2345 0.01 = "1.23" ∧
    quantize_qty 1.2345 0.001 = 1.234 ∧
    quantize_qty 1.2345 1 = 1 ∧
    quantize_qty 1.2345 0.5 = 1 := by
  refine ⟨?_, by with_unfolding_all decide, by with_unfolding_all decide, by with_unfolding_all decide, by with_unfolding_all decide, by with_unfolding_all decide⟩
  intro qty step _
  exact ⟨roundHalfEven (qty / step), rfl⟩

/-- C9 witness: the multiple-of-step property instantiated at qty=1.2345,
step=0.01. -/
theorem C9_quantization_witness :
    (0.01 : ℚ) ≠ 0 ∧ ∃ k : ℤ, quantize_qty 1.2345 0.01 = (k : ℚ) * 0.01 :=
  ⟨by norm_num, C9_quantization.1 1.2345 0.01 (by norm_num)⟩

/-- C2: the end-to-end scenario fails at its first step on the code as
written.  `_load_virtual_wallet` initializes the default wallet as
`{"USDT": {"equity": 100.0, "available_balance": 100.0}}`, but the virtual
path of `place_order` (and every other reader) consults
`virtual_wallet["virtual"]["available"]`, which is absent and so reads as 0;
the required margin is 5, so the Buy order is rejected with
"Insufficient virtual capital" and no state changes.  The remaining
conjuncts show the scenario's numbers are exactly what the code produces
once the wallet actually carries `{"virtual": {available: 100, used: 0}}`:
margin 5, available 95 / used 5, one open non-protective order, one open
position, two protective orders, and closing at 110 yields available 110,
used 0, realized pnl 10, status closed. -/
theorem C2_default_wallet_scenario :
    place_order noPrice "BTCUSDT" "Buy" "Limit" 1 (some 100)
        (initState default_virtual_wallet) =
      (Except.ok PlaceRet.errInsufficient, initState default_virtual_wallet) ∧
    calculate_margin 1 100 20 = 5 ∧
    (getVirtual c4_s1).available = 95 ∧
    (getVirtual c4_s1).used = 5 ∧
    (c4_s1.virtual_orders.filter
        (fun o => !o.reduce_only && o.status == "open")).length = 1 ∧
    openPosCount "BTCUSDT" c4_s1 = 1 ∧
    (c4_s1.virtual_orders.filter (fun o => o.reduce_only)).length = 2 ∧
    (getVirtual (close_virtual_position lastPrice110 "BTCUSDT" c4_s1).2).available
      = 110 ∧
    (getVirtual (close_virtual_position lastPrice110 "BTCUSDT" c4_s1).2).used = 0 ∧
    ((close_virtual_position lastPrice110 "BTCUSDT" c4_s1).1.map
        (fun p => (p.status, p.realized_pnl))) = some ("closed", some 10) := by
  with_unfolding_all decide

/-- A found open position on `symbol` indeed has that symbol and is open. -/
theorem findOpenPos_spec {symbol : String} {l : List VPosition} {pos : VPosition}
    (h : findOpenPos symbol l = some pos) :
    pos.symbol = symbol ∧ pos.status = "open" := by
  induction l with
  | nil => cases h
  | cons p rest ih =>
      unfold findOpenPos at h
      by_cases hp : (p.symbol == symbol && p.status == "open") = true
      · rw [if_pos hp] at h
        cases h
        simpa using hp
      · rw [if_neg hp] at h
        exact ih h

/-- C10: when the market-data fetch returns no candles for the position's
symbol, `calculate_virtual_pnl` returns exactly 0, and
`close_virtual_position` still marks the position closed with realized pnl 0
and refunds its margin to available (`used` floored at 0), while the
`close_trade` record store is left untouched. -/
theorem C10_no_candles_close (priceOf : String → Option ℚ) (s : ClientState)
    (symbol : String) (pos : VPosition)
    (hfind : findOpenPos symbol s.virtual_positions = some pos)
    (hp : priceOf symbol = none) :
    calculate_virtual_pnl priceOf pos = 0 ∧
    (close_virtual_position priceOf symbol s).1 =
      some { pos with status := "closed", unrealized_pnl := some 0,
                      realized_pnl := some 0 } ∧
    (close_virtual_position priceOf symbol s).2.db_closes = s.db_closes ∧
    (getVirtual (close_virtual_position priceOf symbol s).2).available =
      (getVirtual s).available + pos.margin ∧
    (getVirtual (close_virtual_position priceOf symbol s).2).used =
      pyMax ((getVirtual s).used - pos.margin) 0 := by
  have hmem := findOpenPos_spec hfind
  have hpnl : calculate_virtual_pnl priceOf pos = 0 := by
    unfold calculate_virtual_pnl
    rw [hmem.1, hp]
  refine ⟨hpnl, ?_, ?_, ?_, ?_⟩ <;>
    simp [close_virtual_position, hfind, hpnl, hp, getVirtual]

/-- C10 witness: closing the open position of `c1_close_state` with no
candles available. -/
theorem C10_no_candles_close_witness :
    calculate_virtual_pnl noPrice
      { symbol := "BTCUSDT", side := "Buy", qty := 1, price := 100, margin := 5,
        status := "open", order_id := "virtual_0" } = 0 ∧
    (close_virtual_position noPrice "BTCUSDT" c1_close_state).2.db_closes =
      c1_close_state.db_closes ∧
    (getVirtual (close_virtual_position noPrice "BTCUSDT" c1_close_state).2).available
      = (getVirtual c1_close_state).available + 5 := by
  have h := C10_no_candles_close noPrice c1_close_state "BTCUSDT"
    { symbol := "BTCUSDT", side := "Buy", qty := 1, price := 100, margin := 5,
      status := "open", order_id := "virtual_0" }
    (by with_unfolding_all decide) rfl
  exact ⟨h.1, h.2.2.1, h.2.2.2.1⟩

/-- C3: a virtual `place_order` whose required margin (the full margin on the
fresh-open path; the margin difference on the modification path) exceeds the
available balance returns the corresponding insufficient-capital error and
leaves the entire client state — ledger, order list, position list, record
stores — exactly as before the call. -/
theorem C3_insufficient_no_state_change (priceOf : String → Option ℚ)
    (symbol side order_type : String) (qty : ℚ) (price : Option ℚ)
    (s : ClientState) :
    (findOpenOrder symbol side s.virtual_orders = none →
      calculate_margin qty (pyOrQ price 1) 20 > (getVirtual s).available →
      place_order priceOf symbol side order_type qty price s =
        (Except.ok PlaceRet.errInsufficient, s)) ∧
    (∀ o m, findOpenOrder symbol side s.virtual_orders = some o →
      o.margin = some m →
      calculate_margin qty (pyOrQ price 1) 20 - m > (getVirtual s).available →
      place_order priceOf symbol side order_type qty price s =
        (Except.ok PlaceRet.errModify, s)) := by
  constructor
  · intro hord hm
    unfold place_order
    rw [hord]
    simp [hm]
  · intro o m hord hmargin hm
    unfold place_order
    rw [hord]
    simp [hmargin, hm]

/-- C3 witness: available=10 and required margin 15 on the fresh-open path
(qty=3, price=100, leverage 20); available=10 and margin difference
20-5=15 on the modification path. -/
theorem C3_insufficient_no_state_change_witness :
    place_order noPrice "BTCUSDT" "Buy" "Limit" 3 (some 100) (initState walletV10) =
      (Except.ok PlaceRet.errInsufficient, initState walletV10) ∧
    place_order noPrice "BTCUSDT" "Buy" "Limit" 4 (some 100) c3_modify_state =
      (Except.ok PlaceRet.errModify, c3_modify_state) :=
  ⟨(C3_insufficient_no_state_change noPrice "BTCUSDT" "Buy" "Limit" 3 (some 100)
      (initState walletV10)).1 (by with_unfolding_all decide)
      (by with_unfolding_all decide),
   (C3_insufficient_no_state_change noPrice "BTCUSDT" "Buy" "Limit" 4 (some 100)
      c3_modify_state).2 c3_order 5 (by with_unfolding_all decide)
      (by with_unfolding_all decide) (by with_unfolding_all decide)⟩

/-- C1 counterexample: starting from the valid record available=100, used=0
(capital 100), the sequence open (margin 5) / close / open-smaller (margin 1)
on the same `(symbol, side)` leaves `used = -4 < 0`: the close does not
touch the order's `open` status, so the third call takes the modification
path and applies `margin_diff = 1 - 5` to a `used` that is already 0.
`available + used` stays 100 throughout, but `used >= 0` is violated. -/
theorem C1_counterexample :
    (getVirtual c1_final).used = -4 ∧ ((-4 : ℚ) < 0) ∧
    (getVirtual c1_final).available = 104 := by
  with_unfolding_all decide

/-- Evaluates `pyMax a b` to `a` when `b ≤ a`. -/
theorem pyMax_eq_left {a b : ℚ} (h : b ≤ a) : pyMax a b = a := by
  unfold pyMax
  by_cases h2 : a ≤ b
  · rw [if_pos h2]
    linarith
  · rw [if_neg h2]

/-- Shows `close_virtual_position` is the identity when no position is open. -/
theorem close_virtual_position_none (priceOf : String → Option ℚ)
    (symbol : String) (s : ClientState)
    (h : findOpenPos symbol s.virtual_positions = none) :
    close_virtual_position priceOf symbol s = (none, s) := by
  unfold close_virtual_position
  rw [h]

/-- C1 amended: `available + used` (the virtual record's equity, i.e. its
capital) is conserved by every `place_order` call that closes no position,
and a `close` changes it by exactly the realized PnL whenever the closed
position's margin does not exceed `used`.  A `place_order` call closes a
position exactly when no open order matches `(symbol, side)`, the margin
check passes, and an open position exists on the symbol; the disjunctive
hypothesis below is the negation of that, so it covers every other call:
every modification (also of an order whose position is still open), the
KeyError on a matched protective order, both insufficient-capital
rejections, and a fresh open on a symbol with no open position.  (The
nonnegativity halves of the claim are refuted by `C1_counterexample`.) -/
theorem C1_equity_accounting (priceOf : String → Option ℚ)
    (symbol side order_type : String) (qty : ℚ) (price : Option ℚ)
    (s : ClientState) :
    (findOpenPos symbol s.virtual_positions = none ∨
      findOpenOrder symbol side s.virtual_orders ≠ none ∨
      (getVirtual s).available < calculate_margin qty (pyOrQ price 1) 20 →
      equity (place_order priceOf symbol side order_type qty price s).2 =
        equity s) ∧
    (∀ pos, findOpenPos symbol s.virtual_positions = some pos →
      pos.margin ≤ (getVirtual s).used →
      equity (close_virtual_position priceOf symbol s).2 =
        equity s + calculate_virtual_pnl priceOf pos) := by
  constructor
  · intro h
    unfold place_order
    cases hord : findOpenOrder symbol side s.virtual_orders with
    | some o =>
        cases hm : o.margin with
        | none => simp [hm, equity]
        | some m =>
            simp only [hm]
            unfold getVirtual
            by_cases hd : (s.virtual_wallet.virt.getD
                { available := 0, used := 0 }).available <
                calculate_margin qty (pyOrQ price 1) 20 - m
            · simp [hd]
            · simp [hd, equity, getVirtual]
    | none =>
        by_cases hc : calculate_margin qty (pyOrQ price 1) 20 >
            (getVirtual s).available
        · simp [hc]
        · have hpos : findOpenPos symbol s.virtual_positions = none := by
            rcases h with hp | ho | hm2
            · exact hp
            · exact (ho hord).elim
            · exact (hc hm2).elim
          have hclose := close_virtual_position_none priceOf symbol s hpos
          simp only [hc, if_false, if_neg]
          unfold place_order_open
          rw [hclose]
          cases hv : s.virtual_wallet.virt with
          | none => simp [equity, getVirtual, hv]
          | some w =>
              simp [equity, getVirtual, hv]
  · intro pos hfind hmargin
    unfold close_virtual_position
    rw [hfind]
    have hmax : pyMax ((getVirtual s).used - pos.margin) 0 =
        (getVirtual s).used - pos.margin :=
      pyMax_eq_left (by linarith)
    simp [equity, getVirtual, hmax]
    unfold getVirtual at hmax
    rw [hmax]
    ring

/-- C1 amended witness: a fresh open on a symbol with no position preserves
equity 100; a modification of the live open order of `c3_modify_state`
(whose position is still open, so nothing is closed) preserves equity 15;
and closing the margin-5 position of `c1_close_state` at last price 110
moves equity from 100 to 110 = 100 + pnl. -/
theorem C1_equity_accounting_witness :
    equity (place_order noPrice "ETHUSDT" "Buy" "Limit" 1 (some 100)
      (initState walletV100)).2 = equity (initState walletV100) ∧
    equity (place_order noPrice "BTCUSDT" "Buy" "Limit" 1 (some 100)
      c3_modify_state).2 = equity c3_modify_state ∧
    equity (close_virtual_position lastPrice110 "BTCUSDT" c1_close_state).2 =
      equity c1_close_state + calculate_virtual_pnl lastPrice110 c1_close_pos :=
  ⟨(C1_equity_accounting noPrice "ETHUSDT" "Buy" "Limit" 1 (some 100)
      (initState walletV100)).1 (Or.inl (by with_unfolding_all decide)),
   (C1_equity_accounting noPrice "BTCUSDT" "Buy" "Limit" 1 (some 100)
      c3_modify_state).1 (Or.inr (Or.inl (by with_unfolding_all decide))),
   (C1_equity_accounting lastPrice110 "BTCUSDT" "Buy" "Limit" 1 (some 100)
      c1_close_state).2 c1_close_pos (by with_unfolding_all decide)
      (by with_unfolding_all decide)⟩

/-- C4 counterexample: after opening a Buy position, opening a Sell on the
same symbol does NOT close the old position first — the `(symbol, side)`
order search matches the protective TP order (side Sell, still `open`),
whose dict has no `margin` key, so `existing_order["margin"]` raises
`KeyError` and nothing changes: the old Buy position remains open with no
realized PnL. -/
theorem C4_counterexample :
    c4_result.1 = Except.error "KeyError: margin" ∧
    c4_result.2 = c4_s1 ∧
    ((findOpenPos "BTCUSDT" c4_result.2.virtual_positions).map
        (fun p => (p.side, p.status, p.realized_pnl))) =
      some ("Buy", "open", none) := by
  with_unfolding_all decide

/-- C6 counterexample: for an entry price of 100, the virtual path of
`place_order` records the protective orders at 102 and 98 (multipliers
1.02/0.98), while `place_tp_sl_limit_orders` prices them at 130 and 85
(multipliers 1.30/0.85) — the two paths do not use the same offsets, and
the offsets are identical for a Sell parent (no direction awareness of the
prices; only the order side is flipped). -/
theorem C6_counterexample :
    ((c4_s1.virtual_orders.filter (fun o => o.order_id == "virtual_0_TP")).map
        (fun o => o.price)) = [some 102] ∧
    ((c4_s1.virtual_orders.filter (fun o => o.order_id == "virtual_0_SL")).map
        (fun o => o.price)) = [some 98] ∧
    tp_sl_prices 100 = (130, 85) ∧
    ((place_tp_sl_limit_orders "BTCUSDT" "Sell" 100 1 "oid"
        (initState walletV100)).virtual_orders.map (fun o => (o.side, o.price))) =
      [("Buy", some 130), ("Buy", some 85)] ∧
    (some (102 : ℚ) ≠ some (130 : ℚ)) := by
  with_unfolding_all decide

/-- C7 counterexample: `c7_state` has an open position with margin 20, only
10 available and no matching open order.  A new order requiring margin 15 is
rejected with "Insufficient virtual capital" and nothing changes — the
sufficiency check ran against the pre-refund available (10), not the
post-refund balance (10 + 20 + pnl = 30 ≥ 15) the claim describes, and the
old position was not closed. -/
theorem C7_counterexample :
    c7_result.1 = Except.ok PlaceRet.errInsufficient ∧
    c7_result.2 = c7_state ∧
    ((findOpenPos "BTCUSDT" c7_state.virtual_positions).map
        (fun p => p.margin)) = some 20 ∧
    (getVirtual c7_state).available + 20 +
        2 * calculate_virtual_pnl noPrice
          { symbol := "BTCUSDT", side := "Buy", qty := 4, price := 100,
            margin := 20, status := "open", order_id := "virtual_0" } ≥ 15 := by
  with_unfolding_all decide

/-- Unfolds `openPosCountL` over a cons. -/
theorem openPosCountL_cons (symbol : String) (p : VPosition) (rest : List VPosition) :
    openPosCountL symbol (p :: rest) =
      openPosCountL symbol rest +
        (if (p.symbol == symbol && p.status == "open") = true then 1 else 0) := by
  unfold openPosCountL
  rw [List.filter_cons]
  by_cases hp : (p.symbol == symbol && p.status == "open") = true
  · simp [hp]
  · simp [hp]

/-- Unfolds `openPosCountL` over an appended singleton. -/
theorem openPosCountL_append (symbol : String) (l : List VPosition) (p : VPosition) :
    openPosCountL symbol (l ++ [p]) =
      openPosCountL symbol l +
        (if (p.symbol == symbol && p.status == "open") = true then 1 else 0) := by
  unfold openPosCountL
  rw [List.filter_append, List.length_append]
  by_cases hp : (p.symbol == symbol && p.status == "open") = true
  · simp [List.filter, hp]
  · simp [List.filter, hp]

/-- If no open position on `symbol` is found, none exists. -/
theorem openPosCountL_zero_of_none {symbol : String} {l : List VPosition}
    (h : findOpenPos symbol l = none) : openPosCountL symbol l = 0 := by
  induction l with
  | nil => rfl
  | cons p rest ih =>
      unfold findOpenPos at h
      rw [openPosCountL_cons]
      by_cases hp : (p.symbol == symbol && p.status == "open") = true
      · rw [if_pos hp] at h
        cases h
      · rw [if_neg hp] at h
        simp [hp, ih h]

/-- Closing removes exactly one open position on `symbol` when one exists. -/
theorem openPosCountL_closePosList_succ {symbol : String} (pnl : ℚ)
    {l : List VPosition} {pos : VPosition}
    (h : findOpenPos symbol l = some pos) :
    openPosCountL symbol (closePosList symbol pnl l) + 1 =
      openPosCountL symbol l := by
  induction l with
  | nil => cases h
  | cons p rest ih =>
      unfold findOpenPos at h
      unfold closePosList
      by_cases hp : (p.symbol == symbol && p.status == "open") = true
      · rw [if_pos hp] at h
        rw [if_pos hp, openPosCountL_cons, openPosCountL_cons]
        simp [hp]
      · rw [if_neg hp] at h
        rw [if_neg hp, openPosCountL_cons, openPosCountL_cons]
        have := ih h
        omega

/-- Closing never increases the open count of any symbol. -/
theorem openPosCountL_closePosList_le (sym2 symbol : String) (pnl : ℚ)
    (l : List VPosition) :
    openPosCountL sym2 (closePosList symbol pnl l) ≤ openPosCountL sym2 l := by
  induction l with
  | nil => exact Nat.le_refl _
  | cons p rest ih =>
      unfold closePosList
      by_cases hp : (p.symbol == symbol && p.status == "open") = true
      · rw [if_pos hp, openPosCountL_cons, openPosCountL_cons]
        simp
      · rw [if_neg hp, openPosCountL_cons, openPosCountL_cons]
        exact Nat.add_le_add_right ih _

/-- The in-place modification of a position (qty/price/margin) does not
change any open count: symbol and status are untouched. -/
theorem openPosCountL_updatePosList (sym2 oid : String) (qty : ℚ)
    (price : Option ℚ) (margin : ℚ) (l : List VPosition) :
    openPosCountL sym2 (updatePosList oid qty price margin l) =
      openPosCountL sym2 l := by
  induction l with
  | nil => rfl
  | cons p rest ih =>
      unfold updatePosList
      by_cases hp : (p.order_id == oid) = true
      · rw [if_pos hp, openPosCountL_cons, openPosCountL_cons]
      · rw [if_neg hp, openPosCountL_cons, openPosCountL_cons, ih]

/-- The closed copy of the found position is in the closed list. -/
theorem closePosList_mem {symbol : String} {pnl : ℚ} {l : List VPosition}
    {pos : VPosition} (h : findOpenPos symbol l = some pos) :
    ({ pos with status := "closed", unrealized_pnl := some pnl,
                realized_pnl := some pnl } : VPosition) ∈
      closePosList symbol pnl l := by
  induction l with
  | nil => cases h
  | cons p rest ih =>
      unfold findOpenPos at h
      unfold closePosList
      by_cases hp : (p.symbol == symbol && p.status == "open") = true
      · rw [if_pos hp] at h
        cases h
        rw [if_pos hp]
        exact List.mem_cons_self _ _
      · rw [if_neg hp] at h
        rw [if_neg hp]
        exact List.mem_cons_of_mem _ (ih h)

/-- One `place_order` call keeps every symbol's open-position count at most
one. -/
theorem openPosCount_place_le (priceOf : String → Option ℚ)
    (symbol side order_type : String) (qty : ℚ) (price : Option ℚ)
    (s : ClientState) (sym : String) (h : ∀ sym2, openPosCount sym2 s ≤ 1) :
    openPosCount sym (place_order priceOf symbol side order_type qty price s).2
      ≤ 1 := by
  unfold place_order
  cases hord : findOpenOrder symbol side s.virtual_orders with
  | some o =>
      cases hm : o.margin with
      | none =>
          simp only [hm]
          exact h sym
      | some m =>
          simp only [hm]
          unfold getVirtual
          by_cases hd : (s.virtual_wallet.virt.getD
              { available := 0, used := 0 }).available <
              calculate_margin qty (pyOrQ price 1) 20 - m
          · rw [if_pos hd]
            exact h sym
          · rw [if_neg hd]
            show openPosCountL sym (updatePosList o.order_id qty price
              (calculate_margin qty (pyOrQ price 1) 20) s.virtual_positions) ≤ 1
            rw [openPosCountL_updatePosList]
            exact h sym
  | none =>
      unfold getVirtual
      dsimp only
      by_cases hc : (s.virtual_wallet.virt.getD
          { available := 0, used := 0 }).available <
          calculate_margin qty (pyOrQ price 1) 20
      · rw [if_pos hc]
        exact h sym
      · rw [if_neg hc]
        unfold place_order_open
        cases hpos : findOpenPos symbol s.virtual_positions with
        | none =>
            rw [close_virtual_position_none priceOf symbol s hpos]
            show openPosCountL sym (s.virtual_positions ++ [_]) ≤ 1
            rw [openPosCountL_append]
            have h1 := h sym
            unfold openPosCount at h1
            by_cases hsym : symbol = sym
            · subst hsym
              rw [openPosCountL_zero_of_none hpos]
              simp
            · simp [hsym]
              omega
        | some pos =>
            unfold close_virtual_position
            rw [hpos]
            show openPosCountL sym
              (closePosList symbol (calculate_virtual_pnl priceOf pos)
                s.virtual_positions ++ [_]) ≤ 1
            rw [openPosCountL_append]
            have h1 := h sym
            unfold openPosCount at h1
            by_cases hsym : symbol = sym
            · subst hsym
              have hsucc := openPosCountL_closePosList_succ
                (calculate_virtual_pnl priceOf pos) hpos
              simp
              omega
            · have hle := openPosCountL_closePosList_le sym symbol
                (calculate_virtual_pnl priceOf pos) s.virtual_positions
              simp [hsym]
              omega

/-- One `close_virtual_position` call keeps every count at most one. -/
theorem openPosCount_close_le (priceOf : String → Option ℚ) (symbol : String)
    (s : ClientState) (sym : String) (h : ∀ sym2, openPosCount sym2 s ≤ 1) :
    openPosCount sym (close_virtual_position priceOf symbol s).2 ≤ 1 := by
  unfold close_virtual_position
  cases hpos : findOpenPos symbol s.virtual_positions with
  | none => exact h sym
  | some pos =>
      show openPosCountL sym (closePosList symbol
        (calculate_virtual_pnl priceOf pos) s.virtual_positions) ≤ 1
      have hle := openPosCountL_closePosList_le sym symbol
        (calculate_virtual_pnl priceOf pos) s.virtual_positions
      have := h sym
      unfold openPosCount at this
      omega

/-- C4 amended: after any finite sequence of virtual operations starting
from a state where every symbol has at most one open position (in
particular, from a fresh client), every symbol still has at most one open
position.  (The claim's "regardless of side closes the old one first"
mechanism is refuted by `C4_counterexample`: only the symbol-and-side order
search decides the path, and an opposite-side open matches a protective
order and raises.) -/
theorem C4_at_most_one_open (s : ClientState) (ops : List VOp)
    (h : ∀ sym, openPosCount sym s ≤ 1) :
    ∀ sym, openPosCount sym (applyOps s ops) ≤ 1 := by
  induction ops generalizing s with
  | nil => exact h
  | cons op rest ih =>
      refine ih (applyOp s op) ?_
      intro sym
      cases op with
      | place priceOf symbol side order_type qty price =>
          exact openPosCount_place_le priceOf symbol side order_type qty price
            s sym h
      | close priceOf symbol => exact openPosCount_close_le priceOf symbol s sym h
      | monitor => exact h sym

/-- C4 amended witness: the open/close/open-smaller sequence of `c1_ops`
leaves at most one open position on BTCUSDT (exactly one, in fact, after
the final modification of a closed position's order). -/
theorem C4_at_most_one_open_witness :
    openPosCount "BTCUSDT" (applyOps (initState walletV100) c1_ops) ≤ 1 :=
  C4_at_most_one_open (initState walletV100) c1_ops
    (fun sym => by simp [openPosCount, openPosCountL, initState, walletV100])
    "BTCUSDT"

/-- C7 amended: on a symbol with an open position and no matching open
`(symbol, side)` order, the margin sufficiency check runs FIRST, against the
available balance as it is before any refund: if the new margin exceeds it
the call fails and the old position stays open (see `C7_counterexample`);
only when the check passes is the old position closed — realizing its PnL
and refunding its margin — after which the new order's margin is applied
(the realized PnL being credited a second time by the open path's wallet
update). -/
theorem C7_check_before_close (priceOf : String → Option ℚ)
    (symbol side order_type : String) (qty : ℚ) (price : Option ℚ)
    (s : ClientState) (w : VirtualRecord)
    (hw : s.virtual_wallet.virt = some w)
    (hord : findOpenOrder symbol side s.virtual_orders = none) :
    (w.available < calculate_margin qty (pyOrQ price 1) 20 →
      place_order priceOf symbol side order_type qty price s =
        (Except.ok PlaceRet.errInsufficient, s)) ∧
    (∀ pos, findOpenPos symbol s.virtual_positions = some pos →
      ¬ w.available < calculate_margin qty (pyOrQ price 1) 20 →
      (∃ o, (place_order priceOf symbol side order_type qty price s).1 =
        Except.ok (PlaceRet.opened o)) ∧
      VirtualRecord.available
          (getVirtual (place_order priceOf symbol side order_type qty price s).2) =
        w.available + pos.margin + 2 * calculate_virtual_pnl priceOf pos -
          calculate_margin qty (pyOrQ price 1) 20 ∧
      VirtualRecord.used
          (getVirtual (place_order priceOf symbol side order_type qty price s).2) =
        pyMax (w.used - pos.margin) 0 + calculate_margin qty (pyOrQ price 1) 20 ∧
      ({ pos with status := "closed",
                  unrealized_pnl := some (calculate_virtual_pnl priceOf pos),
                  realized_pnl := some (calculate_virtual_pnl priceOf pos) } :
          VPosition) ∈
        ((place_order priceOf symbol side order_type qty price s).2
          ).virtual_positions) := by
  constructor
  · intro hlt
    unfold place_order
    rw [hord]
    simp [getVirtual, hw, hlt]
  · intro pos hpos hge
    unfold place_order
    rw [hord]
    unfold getVirtual
    rw [hw]
    dsimp only [Option.getD]
    rw [if_neg hge]
    unfold place_order_open
    unfold close_virtual_position
    rw [hpos, hw]
    unfold getVirtual
    rw [hw]
    dsimp only [Option.getD, Option.isSome]
    refine ⟨⟨_, rfl⟩, ?_, ?_, ?_⟩
    · simp
      ring
    · simp
    · dsimp only
      exact List.mem_append_left _ (closePosList_mem hpos)

/-- C7 amended witness: in `c7_witness_state` (open position with margin 20,
available 25, no open orders, no market data) a margin-15 order passes the
check, the old position is closed with pnl 0, and the wallet becomes
available = 25 + 20 + 0 - 15 = 30, used = max(20-20,0) + 15 = 15. -/
theorem C7_check_before_close_witness :
    (∃ o, c7_witness_result.1 = Except.ok (PlaceRet.opened o)) ∧
    (getVirtual c7_witness_result.2).available = 30 ∧
    (getVirtual c7_witness_result.2).used = 15 := by
  have h := (C7_check_before_close noPrice "BTCUSDT" "Buy" "Limit" 3 (some 100)
      c7_witness_state { available := 25, used := 20 } rfl rfl).2
      { symbol := "BTCUSDT", side := "Buy", qty := 4, price := 100, margin := 20,
        status := "open", order_id := "virtual_0" }
      (by with_unfolding_all decide) (by with_unfolding_all decide)
  refine ⟨h.1, ?_, ?_⟩
  · unfold c7_witness_result
    rw [h.2.1]
    with_unfolding_all decide
  · unfold c7_witness_result
    rw [h.2.2.1]
    with_unfolding_all decide

/-- C8 counterexample: ranked signals `[sigMissingSL, sigOk]` — the first
places successfully but its signal lacks `SL`, so the executing loop raises
`ValueError(["SL"])` and the whole cycle aborts: the second, fully valid
signal is never executed and no trades are recorded, contradicting
"execution continues with the remaining ranked signals and the cycle
completes". -/
theorem C8_counterexample :
    executeSignals noPrice [sigMissingSL, sigOk] (initState walletV100) [] =
      Except.error (RunError.valueError ["SL"]) := by
  with_unfolding_all decide

/-- Closing a position never touches the order list. -/
theorem close_virtual_position_orders (priceOf : String → Option ℚ)
    (symbol : String) (s : ClientState) :
    (close_virtual_position priceOf symbol s).2.virtual_orders =
      s.virtual_orders := by
  unfold close_virtual_position
  cases h : findOpenPos symbol s.virtual_positions <;> rfl

/-- C6 amended: `place_tp_sl_limit_orders` appends the take-profit at
`round(entry * 1.30, 4)` and the stop-loss at `round(entry * 0.85, 4)`
whatever the side (only the order side is flipped) — the same prices its
real branch submits — while the virtual path inside `place_order` records
its protective pair at `round(entry * 1.02, 4)` and `round(entry * 0.98, 4)`,
also side-independent.  The two paths therefore do not share offsets
(`C6_counterexample`). -/
theorem C6_protective_offsets (symbol side : String) (entry_price qty : ℚ)
    (order_id : String) (s : ClientState) :
    (ClientState.virtual_orders
        (place_tp_sl_limit_orders symbol side entry_price qty order_id s) =
      s.virtual_orders ++
        [{ order_id := order_id ++ "_VTP", symbol := symbol,
           side := if side == "Buy" then "Sell" else "Buy",
           order_type := "Limit", qty := qty,
           price := some (pyRound (entry_price * 1.30) 4),
           status := "open", reduce_only := true },
         { order_id := order_id ++ "_VSL", symbol := symbol,
           side := if side == "Buy" then "Sell" else "Buy",
           order_type := "Limit", qty := qty,
           price := some (pyRound (entry_price * 0.85) 4),
           status := "open", reduce_only := true }]) ∧
    (∀ (priceOf : String → Option ℚ) (order_type : String) (qty2 : ℚ)
        (price : Option ℚ) (margin : ℚ) (s2 : ClientState),
      ∃ parent tp sl : VOrder,
        ClientState.virtual_orders
            (place_order_open priceOf symbol side order_type qty2 price
              margin s2).2 = s2.virtual_orders ++ [parent, tp, sl] ∧
        tp.price = some (pyRound (pyOrQ price 1 * 1.02) 4) ∧
        sl.price = some (pyRound (pyOrQ price 1 * 0.98) 4) ∧
        tp.reduce_only = true ∧ sl.reduce_only = true) := by
  constructor
  · rfl
  · intro priceOf order_type qty2 price margin s2
    unfold place_order_open
    dsimp only
    rw [close_virtual_position_orders]
    exact ⟨_, _, _, rfl, rfl, rfl, rfl, rfl⟩

/-- C8 amended: in the executing loop, an exception thrown by `place_order`
skips only that signal (the loop continues on the remaining ranked signals),
and a result without a `symbol` key is likewise skipped; but once an order
is opened, a missing required field raises `ValueError`, aborting the whole
remaining cycle — whatever signals were still queued. -/
theorem C8_per_signal_vs_cycle (priceOf : String → Option ℚ) (sig : Signal)
    (rest : List Signal) (s : ClientState) (trades : List EngineTrade) :
    (∀ e, (place_order priceOf sig.symbol sig.side sig.order_type sig.qty
        (some sig.entry) s).1 = Except.error e →
      executeSignals priceOf (sig :: rest) s trades =
        executeSignals priceOf rest
          (place_order priceOf sig.symbol sig.side sig.order_type sig.qty
            (some sig.entry) s).2 trades) ∧
    (∀ o, (place_order priceOf sig.symbol sig.side sig.order_type sig.qty
        (some sig.entry) s).1 = Except.ok (PlaceRet.opened o) →
      ¬ (missing_fields o sig).isEmpty = true →
      executeSignals priceOf (sig :: rest) s trades =
        Except.error (RunError.valueError (missing_fields o sig))) := by
  constructor
  · intro e h
    conv_lhs => unfold executeSignals
    dsimp only
    rw [h]
  · intro o h hmiss
    conv_lhs => unfold executeSignals
    dsimp only
    rw [h]
    dsimp only
    rw [if_neg hmiss]

/-- C8 amended witness: a `place_order` exception (the Sell-after-Buy
KeyError) skips only that signal; a missing `SL` on an opened order aborts
with `ValueError(["SL"])`. -/
theorem C8_per_signal_vs_cycle_witness :
    executeSignals noPrice [sigSell] c4_s1 [] =
      executeSignals noPrice []
        (place_order noPrice sigSell.symbol sigSell.side sigSell.order_type
          sigSell.qty (some sigSell.entry) c4_s1).2 [] ∧
    executeSignals noPrice [sigMissingSL] (initState walletV100) [] =
      Except.error (RunError.valueError ["SL"]) := by
  constructor
  · exact (C8_per_signal_vs_cycle noPrice sigSell [] c4_s1 []).1
      "KeyError: margin" (by with_unfolding_all decide)
  · have h2 := (C8_per_signal_vs_cycle noPrice sigMissingSL []
      (initState walletV100) []).2
      { order_id := "virtual_0", symbol := "AAAUSDT", side := "Buy",
        order_type := "Market", qty := 1, price := some 100, status := "open",
        margin := some 5, leverage := some 20 }
      (by with_unfolding_all decide) (by with_unfolding_all decide)
    rw [h2]
    with_unfolding_all decide

end AlgoTrader
